import Mathlib

/-!
Shallow embedding of the Barbearia API backend
(`barbearia_api/src/server.js`, `barbearia_api/src/auth.js`, `db.js`).

The database is a record of tables (lists of rows plus an auto-increment
counter, mirroring SQLite AUTOINCREMENT).  Each HTTP handler becomes a pure
function from the request data and the database state to a response and a new
database state.  External library calls (bcrypt, jsonwebtoken, zod's
email/url format checks) are passed in as function parameters, since their
internals are not part of this repository.
-/

namespace Barbearia

/-- A JSON value as it appears in a request body.  Numbers are modelled as
integers (all numeric fields in the API are integer-valued). -/
inductive JVal where
  | jnull : JVal
  | jstr : String → JVal
  | jnum : Int → JVal
  | jbool : Bool → JVal
deriving DecidableEq, Repr

/-- A JSON object: the request body. -/
abbrev Body := List (String × JVal)

/-- Field lookup in a request body. -/
def getField (b : Body) (k : String) : Option JVal :=
  (b.find? (fun p => p.1 = k)).map (fun p => p.2)

/-! ### Validation layer (zod schemas)

Each check returns `none` when the field is valid and `some msg` when it is
invalid; a schema collects one error entry per invalid field, mirroring
`zod.safeParse` + `error.flatten().fieldErrors`. -/

/-- `z.string().min(n)` on a required field. -/
def checkStrMin (b : Body) (k : String) (n : Nat) : Option String :=
  match getField b k with
  | none => some "Required"
  | some (JVal.jstr s) => if s.length < n then some "Too small" else none
  | some _ => some "Expected string"

/-- `z.string().email()` on a required field; the email format test itself is
library code, passed in as `emailOk`. -/
def checkEmailReq (emailOk : String → Bool) (b : Body) (k : String) : Option String :=
  match getField b k with
  | none => some "Required"
  | some (JVal.jstr s) => if emailOk s then none else some "Invalid email"
  | some _ => some "Expected string"

/-- `z.string().optional()`: absent is fine, `null` is not. -/
def checkOptStr (b : Body) (k : String) : Option String :=
  match getField b k with
  | none => none
  | some (JVal.jstr _) => none
  | some _ => some "Expected string"

/-- `z.string().optional().nullable()`: absent or `null` or a string. -/
def checkOptNullStr (b : Body) (k : String) : Option String :=
  match getField b k with
  | none => none
  | some JVal.jnull => none
  | some (JVal.jstr _) => none
  | some _ => some "Expected string"

/-- `z.string().url()` on a required field. -/
def checkUrlReq (urlOk : String → Bool) (b : Body) (k : String) : Option String :=
  match getField b k with
  | none => some "Required"
  | some (JVal.jstr s) => if urlOk s then none else some "Invalid url"
  | some _ => some "Expected string"

/-- `z.string().url().optional()`. -/
def checkOptUrl (urlOk : String → Bool) (b : Body) (k : String) : Option String :=
  match getField b k with
  | none => none
  | some (JVal.jstr s) => if urlOk s then none else some "Invalid url"
  | some _ => some "Expected string"

/-- `z.number().int().min(lo)` on a required field. -/
def checkIntMin (b : Body) (k : String) (lo : Int) : Option String :=
  match getField b k with
  | none => some "Required"
  | some (JVal.jnum n) => if n < lo then some "Too small" else none
  | some _ => some "Expected number"

/-- `z.number().int().min(lo).max(hi)` on a required field. -/
def checkIntBetween (b : Body) (k : String) (lo hi : Int) : Option String :=
  match getField b k with
  | none => some "Required"
  | some (JVal.jnum n) =>
      if n < lo then some "Too small" else if hi < n then some "Too big" else none
  | some _ => some "Expected number"

/-- `z.boolean().optional()`. -/
def checkOptBool (b : Body) (k : String) : Option String :=
  match getField b k with
  | none => none
  | some (JVal.jbool _) => none
  | some _ => some "Expected boolean"

/-- `z.enum(vals)` on a required field. -/
def checkEnum (b : Body) (k : String) (vals : List String) : Option String :=
  match getField b k with
  | none => some "Required"
  | some (JVal.jstr s) => if vals.contains s then none else some "Invalid enum value"
  | some _ => some "Expected string"

/-- Collect the error map: one `(field, message)` entry per invalid field. -/
def fieldErrors (checks : List (String × Option String)) : List (String × String) :=
  checks.filterMap (fun p => p.2.map (fun m => (p.1, m)))

/-! Extractors used once a schema has accepted the body. -/

def getStr (b : Body) (k : String) : String :=
  match getField b k with
  | some (JVal.jstr s) => s
  | _ => ""

def getOptStr (b : Body) (k : String) : Option String :=
  match getField b k with
  | some (JVal.jstr s) => some s
  | _ => none

def getOptBool (b : Body) (k : String) : Option Bool :=
  match getField b k with
  | some (JVal.jbool v) => some v
  | _ => none

def getInt (b : Body) (k : String) : Int :=
  match getField b k with
  | some (JVal.jnum n) => n
  | _ => 0

/-- JavaScript `x || null` applied to an optional string: the empty string is
falsy and collapses to `null`. -/
def orNull (o : Option String) : Option String :=
  match o with
  | some s => if s = "" then none else some s
  | none => none

/-! ### Data model (`db.js` migrate schema) -/

structure UserRow where
  id : Nat
  email : String
  password_hash : String
  role : String
  created_at : Nat
deriving DecidableEq, Repr

structure ServiceRow where
  id : Nat
  title : String
  description : Option String
  price_cents : Int
  active : Bool
  created_at : Nat
deriving DecidableEq, Repr

structure TeamRow where
  id : Nat
  name : String
  role : Option String
  photo_url : Option String
  active : Bool
  created_at : Nat
deriving DecidableEq, Repr

structure TestimonialRow where
  id : Nat
  author : String
  content : String
  rating : Int
  active : Bool
  created_at : Nat
deriving DecidableEq, Repr

structure GalleryRow where
  id : Nat
  image_url : String
  caption : Option String
  active : Bool
  created_at : Nat
deriving DecidableEq, Repr

structure PostRow where
  id : Nat
  title : String
  excerpt : Option String
  content : Option String
  cover_url : Option String
  published : Bool
  created_at : Nat
deriving DecidableEq, Repr

structure ApptRow where
  id : Nat
  name : String
  phone : String
  email : String
  service : Option String
  datetime : Option String
  notes : Option String
  status : String
  created_at : Nat
deriving DecidableEq, Repr

structure ContactRow where
  id : Nat
  name : String
  email : String
  message : String
  created_at : Nat
deriving DecidableEq, Repr

/-- A table: its rows in insertion order and the next AUTOINCREMENT id. -/
structure Table (α : Type) where
  rows : List α
  nextId : Nat
deriving DecidableEq, Repr

/-- `INSERT`: append the new row built from the assigned id; return the table
and `lastInsertRowid`. -/
def Table.insertRow {α : Type} (t : Table α) (mk : Nat → α) : Table α × Nat :=
  (⟨t.rows ++ [mk t.nextId], t.nextId + 1⟩, t.nextId)

/-- `UPDATE ... WHERE id=?`: rewrite the matching rows, return the table and
`info.changes` (number of matched rows). -/
def updateById {α : Type} (t : Table α) (key : α → Nat) (id : Nat) (f : α → α) :
    Table α × Nat :=
  (⟨t.rows.map (fun r => if key r == id then f r else r), t.nextId⟩,
   (t.rows.filter (fun r => key r == id)).length)

/-- `DELETE FROM ... WHERE id=?`: drop the matching rows, return the table and
`info.changes`. -/
def deleteById {α : Type} (t : Table α) (key : α → Nat) (id : Nat) :
    Table α × Nat :=
  (⟨t.rows.filter (fun r => key r != id), t.nextId⟩,
   (t.rows.filter (fun r => key r == id)).length)

/-- The whole persistent store. -/
structure DB where
  users : Table UserRow
  services : Table ServiceRow
  team : Table TeamRow
  testimonials : Table TestimonialRow
  gallery : Table GalleryRow
  posts : Table PostRow
  appointments : Table ApptRow
  contacts : Table ContactRow
deriving DecidableEq, Repr

/-- `ORDER BY id` (ascending). -/
def sortByKey {α : Type} (key : α → Nat) (l : List α) : List α :=
  List.insertionSort (fun a b => key a ≤ key b) l

/-- `ORDER BY id DESC`. -/
def sortByKeyDesc {α : Type} (key : α → Nat) (l : List α) : List α :=
  List.insertionSort (fun a b => key b ≤ key a) l

/-! ### Auth module (`auth.js`) -/

/-- The JWT claim set issued by `signToken`. -/
structure Claims where
  sub : Nat
  role : String
  email : String
deriving DecidableEq, Repr

/-- `header.startsWith('Bearer ') ? header.slice(7) : null`, on the
character sequence of the header. -/
def bearerToken (header : String) : Option String :=
  if "Bearer ".data.isPrefixOf header.data then some ⟨header.data.drop 7⟩ else none

/-- Outcome of a middleware chain: either a response was sent or the request
proceeds with the attached claims. -/
inductive AuthOutcome where
  | denied : Nat → String → AuthOutcome
  | allowed : Claims → AuthOutcome
deriving DecidableEq, Repr

/-- `authMiddleware`: extract the bearer token (`!token` also rejects the
empty string, as in JavaScript) and verify it; `jwt.verify` is modelled by
the `verify` parameter, `none` standing for a thrown verification error. -/
def authMiddleware (verify : String → Option Claims) (authHeader : Option String) :
    AuthOutcome :=
  let token := (bearerToken (authHeader.getD "")).getD ""
  if token = "" then .denied 401 "missing_token"
  else
    match verify token with
    | some payload => .allowed payload
    | none => .denied 401 "invalid_token"

/-- `ensureAdmin`, reached only with `req.user` attached. -/
def ensureAdmin (c : Claims) : AuthOutcome :=
  if c.role ≠ "admin" then .denied 403 "forbidden" else .allowed c

/-- `app.use("/admin", authMiddleware, ensureAdmin)`: the role check runs only
when authentication succeeded. -/
def adminGate (verify : String → Option Claims) (authHeader : Option String) :
    AuthOutcome :=
  match authMiddleware verify authHeader with
  | .denied s m => .denied s m
  | .allowed c => ensureAdmin c

/-- `ensureAdminUser` (bcrypt.hashSync is the `hash` parameter; `!email ||
!pwd` also rejects empty strings). -/
def ensureAdminUser (hash : String → String) (adminEmail adminPwd : Option String)
    (now : Nat) (db : DB) : DB :=
  match adminEmail, adminPwd with
  | some e, some p =>
    if e = "" ∨ p = "" then db
    else
      match db.users.rows.find? (fun u => u.email == e) with
      | some _ => db
      | none =>
        let (t, _) := db.users.insertRow
          (fun i => ⟨i, e, hash p, "admin", now⟩)
        { db with users := t }
  | _, _ => db

/-- `seedIfEmpty` (`db.js`). -/
def seedIfEmpty (now : Nat) (db : DB) : DB :=
  if db.services.rows.length = 0 then
    let (t1, _) := db.services.insertRow
      (fun i => ⟨i, "Corte Clássico", some "Tesoura e máquina, finalização.", 4000, true, now⟩)
    let (t2, _) := t1.insertRow
      (fun i => ⟨i, "Barba Modelada", some "Desenho e hidratação.", 3000, true, now⟩)
    let (t3, _) := t2.insertRow
      (fun i => ⟨i, "Corte + Barba", some "Combo especial.", 7000, true, now⟩)
    { db with services := t3 }
  else db

/-- Startup sequence of `server.js`: `seedIfEmpty(); ensureAdminUser();`
(`migrate` only creates tables `IF NOT EXISTS`, a no-op on this model). -/
def bootstrap (hash : String → String) (adminEmail adminPwd : Option String)
    (now : Nat) (db : DB) : DB :=
  ensureAdminUser hash adminEmail adminPwd now (seedIfEmpty now db)

/-! ### HTTP responses -/

/-- The JSON body shapes the handlers produce. -/
inductive RBody where
  | errorFields : List (String × String) → RBody
  | errorMsg : String → RBody
  | createdId : Nat → RBody
  | createdWithStatus : Nat → String → RBody
  | updatedCount : Nat → RBody
  | deletedCount : Nat → RBody
  | tokenBody : String → RBody
deriving DecidableEq, Repr

/-- A handler response: HTTP status code and JSON body. -/
structure HResp where
  status : Nat
  body : RBody
deriving DecidableEq, Repr

/-! ### Per-endpoint schemas -/

/-- Shared shape of every schema: collect the field errors; when there are
none, return the parsed value. -/
def runSchema {T : Type} (checks : List (String × Option String)) (parsed : T) :
    Except (List (String × String)) T :=
  match fieldErrors checks with
  | [] => .ok parsed
  | es => .error es

structure LoginInput where
  email : String
  password : String
deriving DecidableEq, Repr

def loginChecks (emailOk : String → Bool) (b : Body) : List (String × Option String) :=
  [("email", checkEmailReq emailOk b "email"),
   ("password", checkStrMin b "password" 3)]

def validateLogin (emailOk : String → Bool) (b : Body) :
    Except (List (String × String)) LoginInput :=
  runSchema (loginChecks emailOk b) ⟨getStr b "email", getStr b "password"⟩

structure ApptInput where
  name : String
  phone : String
  email : String
  service : Option String
  datetime : Option String
  notes : Option String
deriving DecidableEq, Repr

def apptChecks (emailOk : String → Bool) (b : Body) : List (String × Option String) :=
  [("name", checkStrMin b "name" 2),
   ("phone", checkStrMin b "phone" 6),
   ("email", checkEmailReq emailOk b "email"),
   ("service", checkOptNullStr b "service"),
   ("datetime", checkOptNullStr b "datetime"),
   ("notes", checkOptNullStr b "notes")]

def validateAppt (emailOk : String → Bool) (b : Body) :
    Except (List (String × String)) ApptInput :=
  runSchema (apptChecks emailOk b) ⟨getStr b "name", getStr b "phone", getStr b "email",
               getOptStr b "service", getOptStr b "datetime", getOptStr b "notes"⟩

structure ContactInput where
  name : String
  email : String
  message : String
deriving DecidableEq, Repr

def contactChecks (emailOk : String → Bool) (b : Body) : List (String × Option String) :=
  [("name", checkStrMin b "name" 2),
   ("email", checkEmailReq emailOk b "email"),
   ("message", checkStrMin b "message" 2)]

def validateContact (emailOk : String → Bool) (b : Body) :
    Except (List (String × String)) ContactInput :=
  runSchema (contactChecks emailOk b) ⟨getStr b "name", getStr b "email", getStr b "message"⟩

structure ServiceInput where
  title : String
  description : Option String
  price_cents : Int
  active : Option Bool
deriving DecidableEq, Repr

def serviceChecks (b : Body) : List (String × Option String) :=
  [("title", checkStrMin b "title" 2),
   ("description", checkOptStr b "description"),
   ("price_cents", checkIntMin b "price_cents" 0),
   ("active", checkOptBool b "active")]

def validateService (b : Body) : Except (List (String × String)) ServiceInput :=
  runSchema (serviceChecks b) ⟨getStr b "title", getOptStr b "description",
               getInt b "price_cents", getOptBool b "active"⟩

structure TeamInput where
  name : String
  role : Option String
  photo_url : Option String
  active : Option Bool
deriving DecidableEq, Repr

def teamChecks (urlOk : String → Bool) (b : Body) : List (String × Option String) :=
  [("name", checkStrMin b "name" 2),
   ("role", checkOptStr b "role"),
   ("photo_url", checkOptUrl urlOk b "photo_url"),
   ("active", checkOptBool b "active")]

def validateTeam (urlOk : String → Bool) (b : Body) :
    Except (List (String × String)) TeamInput :=
  runSchema (teamChecks urlOk b) ⟨getStr b "name", getOptStr b "role",
               getOptStr b "photo_url", getOptBool b "active"⟩

structure TestimonialInput where
  author : String
  content : String
  rating : Int
  active : Option Bool
deriving DecidableEq, Repr

def testimonialChecks (b : Body) : List (String × Option String) :=
  [("author", checkStrMin b "author" 2),
   ("content", checkStrMin b "content" 2),
   ("rating", checkIntBetween b "rating" 1 5),
   ("active", checkOptBool b "active")]

def validateTestimonial (b : Body) :
    Except (List (String × String)) TestimonialInput :=
  runSchema (testimonialChecks b) ⟨getStr b "author", getStr b "content",
               getInt b "rating", getOptBool b "active"⟩

structure GalleryInput where
  image_url : String
  caption : Option String
  active : Option Bool
deriving DecidableEq, Repr

def galleryChecks (urlOk : String → Bool) (b : Body) : List (String × Option String) :=
  [("image_url", checkUrlReq urlOk b "image_url"),
   ("caption", checkOptStr b "caption"),
   ("active", checkOptBool b "active")]

def validateGallery (urlOk : String → Bool) (b : Body) :
    Except (List (String × String)) GalleryInput :=
  runSchema (galleryChecks urlOk b) ⟨getStr b "image_url", getOptStr b "caption", getOptBool b "active"⟩

structure PostInput where
  title : String
  excerpt : Option String
  content : Option String
  cover_url : Option String
  published : Option Bool
deriving DecidableEq, Repr

def postChecks (urlOk : String → Bool) (b : Body) : List (String × Option String) :=
  [("title", checkStrMin b "title" 2),
   ("excerpt", checkOptStr b "excerpt"),
   ("content", checkOptStr b "content"),
   ("cover_url", checkOptUrl urlOk b "cover_url"),
   ("published", checkOptBool b "published")]

def validatePost (urlOk : String → Bool) (b : Body) :
    Except (List (String × String)) PostInput :=
  runSchema (postChecks urlOk b) ⟨getStr b "title", getOptStr b "excerpt", getOptStr b "content",
               getOptStr b "cover_url", getOptBool b "published"⟩

def statusChecks (b : Body) : List (String × Option String) :=
  [("status", checkEnum b "status" ["pending", "confirmed", "canceled"])]

def validateStatus (b : Body) : Except (List (String × String)) String :=
  runSchema (statusChecks b) (getStr b "status")

/-! ### Handlers: auth -/

/-- `POST /auth/login`.  `compare plain hash` is `bcrypt.compareSync`, `sign`
is `signToken`; the handler never mutates the store. -/
def login (emailOk : String → Bool) (compare : String → String → Bool)
    (sign : UserRow → String) (db : DB) (b : Body) : HResp :=
  match validateLogin emailOk b with
  | .error es => ⟨400, .errorFields es⟩
  | .ok d =>
    match db.users.rows.find? (fun u => u.email == d.email) with
    | none => ⟨401, .errorMsg "invalid_credentials"⟩
    | some u =>
      if compare d.password u.password_hash then ⟨200, .tokenBody (sign u)⟩
      else ⟨401, .errorMsg "invalid_credentials"⟩

/-! ### Handlers: public reads

Each projection keeps exactly the columns of the handler's SELECT list. -/

structure ServicePub where
  id : Nat
  title : String
  description : Option String
  price_cents : Int
deriving DecidableEq, Repr

def projService (s : ServiceRow) : ServicePub :=
  ⟨s.id, s.title, s.description, s.price_cents⟩

/-- `GET /services`: `WHERE active = 1 ORDER BY id`. -/
def getPublicServices (db : DB) : List ServicePub :=
  (sortByKey (fun r => r.id) (db.services.rows.filter (fun r => r.active))).map projService

structure TeamPub where
  id : Nat
  name : String
  role : Option String
  photo_url : Option String
deriving DecidableEq, Repr

def projTeam (t : TeamRow) : TeamPub := ⟨t.id, t.name, t.role, t.photo_url⟩

/-- `GET /team`: `WHERE active = 1 ORDER BY id`. -/
def getPublicTeam (db : DB) : List TeamPub :=
  (sortByKey (fun r => r.id) (db.team.rows.filter (fun r => r.active))).map projTeam

structure TestimonialPub where
  id : Nat
  author : String
  content : String
  rating : Int
deriving DecidableEq, Repr

def projTestimonial (t : TestimonialRow) : TestimonialPub :=
  ⟨t.id, t.author, t.content, t.rating⟩

/-- `GET /testimonials`: `WHERE active = 1 ORDER BY id DESC LIMIT 12`. -/
def getPublicTestimonials (db : DB) : List TestimonialPub :=
  ((sortByKeyDesc (fun r => r.id)
      (db.testimonials.rows.filter (fun r => r.active))).take 12).map projTestimonial

structure GalleryPub where
  id : Nat
  image_url : String
  caption : Option String
deriving DecidableEq, Repr

def projGallery (g : GalleryRow) : GalleryPub := ⟨g.id, g.image_url, g.caption⟩

/-- `GET /gallery`: `WHERE active = 1 ORDER BY id DESC LIMIT 24`. -/
def getPublicGallery (db : DB) : List GalleryPub :=
  ((sortByKeyDesc (fun r => r.id)
      (db.gallery.rows.filter (fun r => r.active))).take 24).map projGallery

structure PostPub where
  id : Nat
  title : String
  excerpt : Option String
  cover_url : Option String
  created_at : Nat
deriving DecidableEq, Repr

def projPost (p : PostRow) : PostPub := ⟨p.id, p.title, p.excerpt, p.cover_url, p.created_at⟩

/-- `GET /posts`: `WHERE published = 1 ORDER BY id DESC LIMIT 20`. -/
def getPublicPosts (db : DB) : List PostPub :=
  ((sortByKeyDesc (fun r => r.id)
      (db.posts.rows.filter (fun r => r.published))).take 20).map projPost

structure PostDetailPub where
  id : Nat
  title : String
  excerpt : Option String
  content : Option String
  cover_url : Option String
  created_at : Nat
deriving DecidableEq, Repr

/-- `GET /posts/:id`: 404 when missing or unpublished. -/
def getPublicPostDetail (db : DB) (id : Nat) : Except HResp PostDetailPub :=
  match db.posts.rows.find? (fun p => p.id == id && p.published) with
  | none => .error ⟨404, .errorMsg "not_found"⟩
  | some p => .ok ⟨p.id, p.title, p.excerpt, p.content, p.cover_url, p.created_at⟩

/-! ### Handlers: public writes -/

/-- `POST /appointments`. -/
def postAppointments (emailOk : String → Bool) (now : Nat) (db : DB) (b : Body) :
    HResp × DB :=
  match validateAppt emailOk b with
  | .error es => (⟨400, .errorFields es⟩, db)
  | .ok d =>
    let (t, newId) := db.appointments.insertRow (fun i =>
      ⟨i, d.name, d.phone, d.email, orNull d.service, orNull d.datetime,
       orNull d.notes, "pending", now⟩)
    (⟨201, .createdWithStatus newId "pending"⟩, { db with appointments := t })

/-- `POST /contact`. -/
def postContact (emailOk : String → Bool) (now : Nat) (db : DB) (b : Body) :
    HResp × DB :=
  match validateContact emailOk b with
  | .error es => (⟨400, .errorFields es⟩, db)
  | .ok d =>
    let (t, newId) := db.contacts.insertRow (fun i =>
      ⟨i, d.name, d.email, d.message, now⟩)
    (⟨201, .createdId newId⟩, { db with contacts := t })

/-! ### Handlers: admin (behind `adminGate`) -/

/-- `GET /admin/services`: `SELECT * ORDER BY id DESC`. -/
def getAdminServices (db : DB) : List ServiceRow :=
  sortByKeyDesc (fun r => r.id) db.services.rows

/-- `POST /admin/services` (`p.data.active ?? true`, `description || null`). -/
def postService (now : Nat) (db : DB) (b : Body) : HResp × DB :=
  match validateService b with
  | .error es => (⟨400, .errorFields es⟩, db)
  | .ok d =>
    let (t, newId) := db.services.insertRow (fun i =>
      ⟨i, d.title, orNull d.description, d.price_cents, d.active.getD true, now⟩)
    (⟨201, .createdId newId⟩, { db with services := t })

/-- `PUT /admin/services/:id`. -/
def putService (db : DB) (id : Nat) (b : Body) : HResp × DB :=
  match validateService b with
  | .error es => (⟨400, .errorFields es⟩, db)
  | .ok d =>
    let (t, n) := updateById db.services (fun r => r.id) id (fun r =>
      { r with title := d.title, description := orNull d.description,
               price_cents := d.price_cents, active := d.active.getD true })
    (⟨200, .updatedCount n⟩, { db with services := t })

/-- `DELETE /admin/services/:id`. -/
def deleteService (db : DB) (id : Nat) : HResp × DB :=
  let (t, n) := deleteById db.services (fun r => r.id) id
  (⟨200, .deletedCount n⟩, { db with services := t })

/-- `GET /admin/team`. -/
def getAdminTeam (db : DB) : List TeamRow :=
  sortByKeyDesc (fun r => r.id) db.team.rows

/-- `POST /admin/team`. -/
def postTeam (urlOk : String → Bool) (now : Nat) (db : DB) (b : Body) : HResp × DB :=
  match validateTeam urlOk b with
  | .error es => (⟨400, .errorFields es⟩, db)
  | .ok d =>
    let (t, newId) := db.team.insertRow (fun i =>
      ⟨i, d.name, orNull d.role, orNull d.photo_url, d.active.getD true, now⟩)
    (⟨201, .createdId newId⟩, { db with team := t })

/-- `PUT /admin/team/:id`. -/
def putTeam (urlOk : String → Bool) (db : DB) (id : Nat) (b : Body) : HResp × DB :=
  match validateTeam urlOk b with
  | .error es => (⟨400, .errorFields es⟩, db)
  | .ok d =>
    let (t, n) := updateById db.team (fun r => r.id) id (fun r =>
      { r with name := d.name, role := orNull d.role,
               photo_url := orNull d.photo_url, active := d.active.getD true })
    (⟨200, .updatedCount n⟩, { db with team := t })

/-- `DELETE /admin/team/:id`. -/
def deleteTeam (db : DB) (id : Nat) : HResp × DB :=
  let (t, n) := deleteById db.team (fun r => r.id) id
  (⟨200, .deletedCount n⟩, { db with team := t })

/-- `GET /admin/testimonials`. -/
def getAdminTestimonials (db : DB) : List TestimonialRow :=
  sortByKeyDesc (fun r => r.id) db.testimonials.rows

/-- `POST /admin/testimonials`. -/
def postTestimonial (now : Nat) (db : DB) (b : Body) : HResp × DB :=
  match validateTestimonial b with
  | .error es => (⟨400, .errorFields es⟩, db)
  | .ok d =>
    let (t, newId) := db.testimonials.insertRow (fun i =>
      ⟨i, d.author, d.content, d.rating, d.active.getD true, now⟩)
    (⟨201, .createdId newId⟩, { db with testimonials := t })

/-- `PUT /admin/testimonials/:id`. -/
def putTestimonial (db : DB) (id : Nat) (b : Body) : HResp × DB :=
  match validateTestimonial b with
  | .error es => (⟨400, .errorFields es⟩, db)
  | .ok d =>
    let (t, n) := updateById db.testimonials (fun r => r.id) id (fun r =>
      { r with author := d.author, content := d.content,
               rating := d.rating, active := d.active.getD true })
    (⟨200, .updatedCount n⟩, { db with testimonials := t })

/-- `DELETE /admin/testimonials/:id`. -/
def deleteTestimonial (db : DB) (id : Nat) : HResp × DB :=
  let (t, n) := deleteById db.testimonials (fun r => r.id) id
  (⟨200, .deletedCount n⟩, { db with testimonials := t })

/-- `GET /admin/gallery`. -/
def getAdminGallery (db : DB) : List GalleryRow :=
  sortByKeyDesc (fun r => r.id) db.gallery.rows

/-- `POST /admin/gallery`. -/
def postGallery (urlOk : String → Bool) (now : Nat) (db : DB) (b : Body) : HResp × DB :=
  match validateGallery urlOk b with
  | .error es => (⟨400, .errorFields es⟩, db)
  | .ok d =>
    let (t, newId) := db.gallery.insertRow (fun i =>
      ⟨i, d.image_url, orNull d.caption, d.active.getD true, now⟩)
    (⟨201, .createdId newId⟩, { db with gallery := t })

/-- `PUT /admin/gallery/:id`. -/
def putGallery (urlOk : String → Bool) (db : DB) (id : Nat) (b : Body) : HResp × DB :=
  match validateGallery urlOk b with
  | .error es => (⟨400, .errorFields es⟩, db)
  | .ok d =>
    let (t, n) := updateById db.gallery (fun r => r.id) id (fun r =>
      { r with image_url := d.image_url, caption := orNull d.caption,
               active := d.active.getD true })
    (⟨200, .updatedCount n⟩, { db with gallery := t })

/-- `DELETE /admin/gallery/:id`. -/
def deleteGallery (db : DB) (id : Nat) : HResp × DB :=
  let (t, n) := deleteById db.gallery (fun r => r.id) id
  (⟨200, .deletedCount n⟩, { db with gallery := t })

/-- `GET /admin/posts`. -/
def getAdminPosts (db : DB) : List PostRow :=
  sortByKeyDesc (fun r => r.id) db.posts.rows

/-- `POST /admin/posts` (`p.data.published ?? false`). -/
def postPost (urlOk : String → Bool) (now : Nat) (db : DB) (b : Body) : HResp × DB :=
  match validatePost urlOk b with
  | .error es => (⟨400, .errorFields es⟩, db)
  | .ok d =>
    let (t, newId) := db.posts.insertRow (fun i =>
      ⟨i, d.title, orNull d.excerpt, orNull d.content, orNull d.cover_url,
       d.published.getD false, now⟩)
    (⟨201, .createdId newId⟩, { db with posts := t })

/-- `PUT /admin/posts/:id`. -/
def putPost (urlOk : String → Bool) (db : DB) (id : Nat) (b : Body) : HResp × DB :=
  match validatePost urlOk b with
  | .error es => (⟨400, .errorFields es⟩, db)
  | .ok d =>
    let (t, n) := updateById db.posts (fun r => r.id) id (fun r =>
      { r with title := d.title, excerpt := orNull d.excerpt,
               content := orNull d.content, cover_url := orNull d.cover_url,
               published := d.published.getD false })
    (⟨200, .updatedCount n⟩, { db with posts := t })

/-- `DELETE /admin/posts/:id`. -/
def deletePost (db : DB) (id : Nat) : HResp × DB :=
  let (t, n) := deleteById db.posts (fun r => r.id) id
  (⟨200, .deletedCount n⟩, { db with posts := t })

/-- `GET /admin/appointments`. -/
def getAdminAppointments (db : DB) : List ApptRow :=
  sortByKeyDesc (fun r => r.id) db.appointments.rows

/-- `PUT /admin/appointments/:id/status`: sets only the status column. -/
def putApptStatus (db : DB) (id : Nat) (b : Body) : HResp × DB :=
  match validateStatus b with
  | .error es => (⟨400, .errorFields es⟩, db)
  | .ok s =>
    let (t, n) := updateById db.appointments (fun r => r.id) id
      (fun r => { r with status := s })
    (⟨200, .updatedCount n⟩, { db with appointments := t })

/-- `DELETE /admin/appointments/:id`. -/
def deleteAppt (db : DB) (id : Nat) : HResp × DB :=
  let (t, n) := deleteById db.appointments (fun r => r.id) id
  (⟨200, .deletedCount n⟩, { db with appointments := t })

/-- `GET /admin/contacts`. -/
def getAdminContacts (db : DB) : List ContactRow :=
  sortByKeyDesc (fun r => r.id) db.contacts.rows

/-- `DELETE /admin/contacts/:id`. -/
def deleteContact (db : DB) (id : Nat) : HResp × DB :=
  let (t, n) := deleteById db.contacts (fun r => r.id) id
  (⟨200, .deletedCount n⟩, { db with contacts := t })

/-! ### Concrete instances used to exercise the theorems on closed inputs -/

/-- A simple stand-in for zod's email format test. -/
def wEmailOk : String → Bool := fun s => s.data.contains '@'

/-- A simple stand-in for zod's url format test. -/
def wUrlOk : String → Bool := fun s => "http".data.isPrefixOf s.data

/-- A concrete token verifier: one admin token, one non-admin token. -/
def wVerify : String → Option Claims := fun t =>
  if t = "good" then some ⟨1, "admin", "admin@x.com"⟩
  else if t = "user" then some ⟨2, "user", "user@x.com"⟩
  else none

/-- The store right after `migrate()` on a fresh file. -/
def emptyDB : DB :=
  ⟨⟨[], 1⟩, ⟨[], 1⟩, ⟨[], 1⟩, ⟨[], 1⟩, ⟨[], 1⟩, ⟨[], 1⟩, ⟨[], 1⟩, ⟨[], 1⟩⟩

/-- The example appointment request of the spec. -/
def wApptBody : Body :=
  [("name", .jstr "Ana Silva"), ("phone", .jstr "11999999999"),
   ("email", .jstr "ana@x.com")]

/-- A populated store: one visible and one hidden service, plus one row in
each of the other content tables and one admin user. -/
def wDB : DB :=
  { emptyDB with
    services := ⟨[⟨1, "Corte", some "d", 4000, true, 5⟩,
                  ⟨2, "Hidden", none, 1000, false, 5⟩], 3⟩,
    team := ⟨[⟨1, "Jo", some "barber", none, true, 5⟩], 2⟩,
    testimonials := ⟨[⟨1, "Ana", "Great", 5, true, 5⟩], 2⟩,
    gallery := ⟨[⟨1, "http://img/1.png", none, true, 5⟩], 2⟩,
    posts := ⟨[⟨1, "Post", none, none, none, true, 5⟩], 2⟩,
    users := ⟨[⟨1, "admin@x.com", "HASH", "admin", 5⟩], 2⟩ }

/-- A concrete stand-in for `bcrypt.compareSync`: accepts exactly the pair
("secret", "HASH"). -/
def wCompare : String → String → Bool :=
  fun plain hash => plain == "secret" && hash == "HASH"

/-- A concrete stand-in for `signToken`. -/
def wSign : UserRow → String := fun u => String.append "tok-" u.email

/-- A concrete stand-in for `bcrypt.hashSync`. -/
def wHash : String → String := fun s => String.append "h:" s

/-! Concrete valid bodies, one per admin write schema. -/

def wServiceBody : Body := [("title", .jstr "Corte"), ("price_cents", .jnum 4000)]

def wTeamBody : Body := [("name", .jstr "Jo")]

def wTestimonialBody : Body :=
  [("author", .jstr "Ana"), ("content", .jstr "Great"), ("rating", .jnum 5)]

def wGalleryBody : Body := [("image_url", .jstr "http://img/1.png")]

def wPostBody : Body := [("title", .jstr "Post")]

def wStatusBody : Body := [("status", .jstr "confirmed")]

/-- A store with two appointments, one already confirmed. -/
def wApptDB : DB :=
  { emptyDB with appointments :=
     ⟨[⟨1, "Ana Silva", "11999999999", "ana@x.com", none, none, none, "confirmed", 5⟩,
       ⟨2, "Bruno Reis", "11888888888", "bruno@x.com", none, none, none, "pending", 6⟩], 3⟩ }

/-- A service body violating two fields at once. -/
def wBadServiceBody : Body := [("title", .jstr "X"), ("price_cents", .jstr "abc")]

/-- The error map the service schema produces for `wBadServiceBody`. -/
def wBadServiceErrors : List (String × String) :=
  [("title", "Too small"), ("price_cents", "Expected number")]

/-! ### Helper lemmas about the schema machinery -/

theorem runSchema_error {T : Type} (checks : List (String × Option String)) (parsed : T)
    (es : List (String × String)) (h : runSchema checks parsed = .error es) :
    fieldErrors checks = es ∧ es ≠ [] := by
  unfold runSchema at h
  cases hfe : fieldErrors checks with
  | nil => rw [hfe] at h; simp at h
  | cons hd tl =>
    rw [hfe] at h
    simp only [Except.error.injEq] at h
    exact ⟨h, by rw [← h]; simp⟩

theorem runSchema_ok {T : Type} (checks : List (String × Option String)) (parsed : T)
    (d : T) (h : runSchema checks parsed = .ok d) :
    fieldErrors checks = [] ∧ d = parsed := by
  unfold runSchema at h
  cases hfe : fieldErrors checks with
  | nil => rw [hfe] at h; simp only [Except.ok.injEq] at h; exact ⟨rfl, h.symm⟩
  | cons hd tl => rw [hfe] at h; simp at h

theorem runSchema_of_no_errors {T : Type} (checks : List (String × Option String))
    (parsed : T) (h : fieldErrors checks = []) : runSchema checks parsed = .ok parsed := by
  unfold runSchema; rw [h]

theorem mem_fieldErrors (checks : List (String × Option String)) (k m : String) :
    (k, m) ∈ fieldErrors checks ↔ (k, some m) ∈ checks := by
  induction checks with
  | nil => simp [fieldErrors]
  | cons hd tl ih =>
    obtain ⟨k0, e0⟩ := hd
    cases e0 with
    | none =>
      simp only [fieldErrors, List.filterMap_cons, Option.map_none'] at ih ⊢
      simp only [List.mem_cons, ih]
      constructor
      · exact Or.inr
      · rintro (h | h)
        · exact absurd h (by simp)
        · exact h
    | some m0 =>
      simp only [fieldErrors, List.filterMap_cons, Option.map_some'] at ih ⊢
      simp only [List.mem_cons, ih, Prod.mk.injEq, Option.some.injEq]

theorem keys_fieldErrors_sublist (checks : List (String × Option String)) :
    ((fieldErrors checks).map Prod.fst).Sublist (checks.map Prod.fst) := by
  induction checks with
  | nil => simp [fieldErrors]
  | cons hd tl ih =>
    obtain ⟨k0, e0⟩ := hd
    cases e0 with
    | none =>
      simp only [fieldErrors, List.filterMap_cons, Option.map_none', List.map_cons] at ih ⊢
      exact ih.cons k0
    | some m0 =>
      simp only [fieldErrors, List.filterMap_cons, Option.map_some', List.map_cons] at ih ⊢
      exact ih.cons₂ k0

theorem keys_fieldErrors_nodup (checks : List (String × Option String))
    (h : (checks.map Prod.fst).Nodup) : ((fieldErrors checks).map Prod.fst).Nodup :=
  h.sublist (keys_fieldErrors_sublist checks)

/-! ### Helper lemmas about the store operations -/

theorem map_id_of_fixed {α : Type} :
    ∀ (l : List α) (f : α → α), (∀ x ∈ l, f x = x) → l.map f = l
  | [], _, _ => rfl
  | x :: xs, f, h => by
    simp only [List.map_cons, h x (by simp)]
    rw [map_id_of_fixed xs f (fun y hy => h y (by simp [hy]))]

theorem updateById_no_match {α : Type} (t : Table α) (key : α → Nat) (id : Nat)
    (f : α → α) (h : ∀ r ∈ t.rows, key r ≠ id) : updateById t key id f = (t, 0) := by
  unfold updateById
  have hf : t.rows.filter (fun r => key r == id) = [] :=
    List.filter_eq_nil_iff.mpr (fun r hr => by simp [beq_eq_false_iff_ne.mpr (h r hr)])
  have hm : t.rows.map (fun r => if key r == id then f r else r) = t.rows :=
    map_id_of_fixed _ _ (fun r hr => by simp [beq_eq_false_iff_ne.mpr (h r hr)])
  rw [hf, hm]
  rfl

theorem deleteById_no_match {α : Type} (t : Table α) (key : α → Nat) (id : Nat)
    (h : ∀ r ∈ t.rows, key r ≠ id) : deleteById t key id = (t, 0) := by
  unfold deleteById
  have hf : t.rows.filter (fun r => key r == id) = [] :=
    List.filter_eq_nil_iff.mpr (fun r hr => by simp [beq_eq_false_iff_ne.mpr (h r hr)])
  have hk : t.rows.filter (fun r => key r != id) = t.rows :=
    List.filter_eq_self.mpr (fun r hr => by simp [bne_iff_ne, h r hr])
  rw [hf, hk]
  rfl

theorem sorted_sortByKey {α : Type} (key : α → Nat) (l : List α) :
    List.Sorted (fun a b => key a ≤ key b) (sortByKey key l) := by
  haveI : IsTotal α (fun a b => key a ≤ key b) := ⟨fun a b => Nat.le_total _ _⟩
  haveI : IsTrans α (fun a b => key a ≤ key b) := ⟨fun _ _ _ => Nat.le_trans⟩
  exact List.sorted_insertionSort _ l

theorem sorted_sortByKeyDesc {α : Type} (key : α → Nat) (l : List α) :
    List.Sorted (fun a b => key b ≤ key a) (sortByKeyDesc key l) := by
  haveI : IsTotal α (fun a b => key b ≤ key a) := ⟨fun a b => (Nat.le_total _ _).symm⟩
  haveI : IsTrans α (fun a b => key b ≤ key a) :=
    ⟨fun _ _ _ h1 h2 => Nat.le_trans h2 h1⟩
  exact List.sorted_insertionSort _ l

theorem mem_sortByKey {α : Type} (key : α → Nat) (l : List α) (x : α) :
    x ∈ sortByKey key l ↔ x ∈ l :=
  (List.perm_insertionSort _ l).mem_iff

theorem mem_sortByKeyDesc {α : Type} (key : α → Nat) (l : List α) (x : α) :
    x ∈ sortByKeyDesc key l ↔ x ∈ l :=
  (List.perm_insertionSort _ l).mem_iff

theorem length_sortByKeyDesc {α : Type} (key : α → Nat) (l : List α) :
    (sortByKeyDesc key l).length = l.length :=
  (List.perm_insertionSort _ l).length_eq

end Barbearia

namespace Barbearia

/-! ### The claims -/

/-- C1: For every request to a route under the /admin prefix: no bearer token
in the Authorization header gives 401 `missing_token`; a present token that
fails verification gives 401 `invalid_token`; a verified token whose role
claim is not "admin" gives 403 `forbidden`; and the role check is evaluated
only after authentication succeeds (an authentication denial is passed
through unchanged, whatever the role would have been). -/
theorem C1_admin_gate (verify : String → Option Claims) (h : Option String) :
    (bearerToken (h.getD "") = none ∨ bearerToken (h.getD "") = some "" →
      adminGate verify h = .denied 401 "missing_token") ∧
    (∀ t, bearerToken (h.getD "") = some t → t ≠ "" → verify t = none →
      adminGate verify h = .denied 401 "invalid_token") ∧
    (∀ t c, bearerToken (h.getD "") = some t → t ≠ "" → verify t = some c →
      c.role ≠ "admin" → adminGate verify h = .denied 403 "forbidden") ∧
    (∀ t c, bearerToken (h.getD "") = some t → t ≠ "" → verify t = some c →
      c.role = "admin" → adminGate verify h = .allowed c) ∧
    (∀ s m, authMiddleware verify h = .denied s m → adminGate verify h = .denied s m) := by
  refine ⟨?_, ?_, ?_, ?_, ?_⟩
  · rintro (hb | hb) <;> simp [adminGate, authMiddleware, hb]
  · intro t hb ht hv
    simp [adminGate, authMiddleware, hb, ht, hv]
  · intro t c hb ht hv hr
    simp [adminGate, authMiddleware, ensureAdmin, hb, ht, hv, hr]
  · intro t c hb ht hv hr
    simp [adminGate, authMiddleware, ensureAdmin, hb, ht, hv, hr]
  · intro s m hm
    simp [adminGate, hm]

/-- Witness for C1: the four outcomes at concrete headers and verifier. -/
theorem C1_admin_gate_witness :
    adminGate wVerify none = .denied 401 "missing_token" ∧
    adminGate wVerify (some "Token abc") = .denied 401 "missing_token" ∧
    adminGate wVerify (some "Bearer bad") = .denied 401 "invalid_token" ∧
    adminGate wVerify (some "Bearer user") = .denied 403 "forbidden" ∧
    adminGate wVerify (some "Bearer good") = .allowed ⟨1, "admin", "admin@x.com"⟩ :=
  ⟨(C1_admin_gate wVerify none).1 (Or.inl (by decide)),
   (C1_admin_gate wVerify (some "Token abc")).1 (Or.inl (by decide)),
   (C1_admin_gate wVerify (some "Bearer bad")).2.1 "bad" (by decide) (by decide) (by decide),
   (C1_admin_gate wVerify (some "Bearer user")).2.2.1 "user" ⟨2, "user", "user@x.com"⟩
     (by decide) (by decide) (by decide) (by decide),
   (C1_admin_gate wVerify (some "Bearer good")).2.2.2.1 "good" ⟨1, "admin", "admin@x.com"⟩
     (by decide) (by decide) (by decide) rfl⟩

/-- C2: For every payload accepted by the appointment schema (name of length
≥ 2, phone of length ≥ 6, valid email, optional service/datetime/notes),
`POST /appointments` appends exactly one appointment row with status
"pending" and a server-assigned `created_at`, leaves every other table
unchanged, and responds 201 with the new row's id and status "pending". -/
theorem C2_post_appointments (emailOk : String → Bool) (now : Nat) (db : DB) (b : Body)
    (nm ph em : String)
    (h1 : getField b "name" = some (JVal.jstr nm)) (h2 : 2 ≤ nm.length)
    (h3 : getField b "phone" = some (JVal.jstr ph)) (h4 : 6 ≤ ph.length)
    (h5 : getField b "email" = some (JVal.jstr em)) (h6 : emailOk em = true)
    (h7 : checkOptNullStr b "service" = none)
    (h8 : checkOptNullStr b "datetime" = none)
    (h9 : checkOptNullStr b "notes" = none) :
    postAppointments emailOk now db b =
      (⟨201, .createdWithStatus db.appointments.nextId "pending"⟩,
       { db with appointments :=
          ⟨db.appointments.rows ++
             [⟨db.appointments.nextId, nm, ph, em, orNull (getOptStr b "service"),
               orNull (getOptStr b "datetime"), orNull (getOptStr b "notes"),
               "pending", now⟩],
           db.appointments.nextId + 1⟩ }) := by
  have hname : checkStrMin b "name" 2 = none := by
    simp [checkStrMin, h1, Nat.not_lt.mpr h2]
  have hphone : checkStrMin b "phone" 6 = none := by
    simp [checkStrMin, h3, Nat.not_lt.mpr h4]
  have hemail : checkEmailReq emailOk b "email" = none := by
    simp [checkEmailReq, h5, h6]
  have hfe : fieldErrors (apptChecks emailOk b) = [] := by
    simp [apptChecks, fieldErrors, hname, hphone, hemail, h7, h8, h9]
  have hval : validateAppt emailOk b =
      .ok ⟨nm, ph, em, getOptStr b "service", getOptStr b "datetime", getOptStr b "notes"⟩ := by
    unfold validateAppt
    rw [runSchema_of_no_errors _ _ hfe]
    simp [getStr, h1, h3, h5]
  simp [postAppointments, hval, Table.insertRow]

/-- Witness for C2: the spec's example request against the fresh store. -/
theorem C2_post_appointments_witness :
    postAppointments wEmailOk 1000 emptyDB wApptBody =
      (⟨201, .createdWithStatus 1 "pending"⟩,
       { emptyDB with appointments :=
          ⟨[⟨1, "Ana Silva", "11999999999", "ana@x.com", none, none, none,
             "pending", 1000⟩], 2⟩ }) :=
  (C2_post_appointments wEmailOk 1000 emptyDB wApptBody
      "Ana Silva" "11999999999" "ana@x.com"
      (by decide) (by decide) (by decide) (by decide) (by decide) (by decide)
      (by decide) (by decide) (by decide)).trans (by decide)

/-- C3: The public list endpoints return only rows whose visibility flag is
set; each output row is the display-safe projection of a stored row, and the
output never depends on the users table, so no password_hash or other
users-table data can appear. -/
theorem C3_public_lists (db : DB) :
    (∀ r ∈ getPublicServices db,
       ∃ s, s ∈ db.services.rows ∧ s.active = true ∧ r = projService s) ∧
    (∀ r ∈ getPublicTeam db,
       ∃ s, s ∈ db.team.rows ∧ s.active = true ∧ r = projTeam s) ∧
    (∀ r ∈ getPublicTestimonials db,
       ∃ s, s ∈ db.testimonials.rows ∧ s.active = true ∧ r = projTestimonial s) ∧
    (∀ r ∈ getPublicGallery db,
       ∃ s, s ∈ db.gallery.rows ∧ s.active = true ∧ r = projGallery s) ∧
    (∀ r ∈ getPublicPosts db,
       ∃ s, s ∈ db.posts.rows ∧ s.published = true ∧ r = projPost s) ∧
    (∀ u, getPublicServices { db with users := u } = getPublicServices db ∧
          getPublicTeam { db with users := u } = getPublicTeam db ∧
          getPublicTestimonials { db with users := u } = getPublicTestimonials db ∧
          getPublicGallery { db with users := u } = getPublicGallery db ∧
          getPublicPosts { db with users := u } = getPublicPosts db) := by
  refine ⟨?_, ?_, ?_, ?_, ?_, fun u => ⟨rfl, rfl, rfl, rfl, rfl⟩⟩
  · intro r hr
    simp only [getPublicServices, List.mem_map] at hr
    obtain ⟨s, hs, rfl⟩ := hr
    rw [mem_sortByKey] at hs
    obtain ⟨hmem, hact⟩ := List.mem_filter.mp hs
    exact ⟨s, hmem, hact, rfl⟩
  · intro r hr
    simp only [getPublicTeam, List.mem_map] at hr
    obtain ⟨s, hs, rfl⟩ := hr
    rw [mem_sortByKey] at hs
    obtain ⟨hmem, hact⟩ := List.mem_filter.mp hs
    exact ⟨s, hmem, hact, rfl⟩
  · intro r hr
    simp only [getPublicTestimonials, List.mem_map] at hr
    obtain ⟨s, hs, rfl⟩ := hr
    have hs2 := List.take_subset _ _ hs
    rw [mem_sortByKeyDesc] at hs2
    obtain ⟨hmem, hact⟩ := List.mem_filter.mp hs2
    exact ⟨s, hmem, hact, rfl⟩
  · intro r hr
    simp only [getPublicGallery, List.mem_map] at hr
    obtain ⟨s, hs, rfl⟩ := hr
    have hs2 := List.take_subset _ _ hs
    rw [mem_sortByKeyDesc] at hs2
    obtain ⟨hmem, hact⟩ := List.mem_filter.mp hs2
    exact ⟨s, hmem, hact, rfl⟩
  · intro r hr
    simp only [getPublicPosts, List.mem_map] at hr
    obtain ⟨s, hs, rfl⟩ := hr
    have hs2 := List.take_subset _ _ hs
    rw [mem_sortByKeyDesc] at hs2
    obtain ⟨hmem, hact⟩ := List.mem_filter.mp hs2
    exact ⟨s, hmem, hact, rfl⟩

/-- Witness for C3: in the populated store the visible service is traced back
to an active stored row, and wiping the users table leaves the public
services response unchanged. -/
theorem C3_public_lists_witness :
    (∃ s, s ∈ wDB.services.rows ∧ s.active = true ∧
       (⟨1, "Corte", some "d", 4000⟩ : ServicePub) = projService s) ∧
    getPublicServices { wDB with users := ⟨[], 1⟩ } = getPublicServices wDB :=
  ⟨(C3_public_lists wDB).1 ⟨1, "Corte", some "d", 4000⟩ (by decide),
   ((C3_public_lists wDB).2.2.2.2.2 ⟨[], 1⟩).1⟩

/-- C4: POST /auth/login returns a signed token exactly when the submitted
email matches a stored user row (the first such row) and the password
verifies against that row's password_hash; with an unknown email or a wrong
password it returns 401 with the same `invalid_credentials` body in both
cases. -/
theorem C4_login_credentials (emailOk : String → Bool)
    (compare : String → String → Bool) (sign : UserRow → String)
    (db : DB) (b : Body) (email password : String)
    (hv : validateLogin emailOk b = .ok ⟨email, password⟩) :
    (∀ u, db.users.rows.find? (fun x => x.email == email) = some u →
       compare password u.password_hash = true →
       login emailOk compare sign db b = ⟨200, .tokenBody (sign u)⟩) ∧
    (db.users.rows.find? (fun x => x.email == email) = none →
       login emailOk compare sign db b = ⟨401, .errorMsg "invalid_credentials"⟩) ∧
    (∀ u, db.users.rows.find? (fun x => x.email == email) = some u →
       compare password u.password_hash = false →
       login emailOk compare sign db b = ⟨401, .errorMsg "invalid_credentials"⟩) ∧
    (∀ t, login emailOk compare sign db b = ⟨200, .tokenBody t⟩ →
       ∃ u, db.users.rows.find? (fun x => x.email == email) = some u ∧
         compare password u.password_hash = true ∧ t = sign u) := by
  refine ⟨?_, ?_, ?_, ?_⟩
  · intro u hf hc
    simp [login, hv, hf, hc]
  · intro hf
    simp [login, hv, hf]
  · intro u hf hc
    simp [login, hv, hf, hc]
  · intro t ht
    unfold login at ht
    rw [hv] at ht
    simp only at ht
    cases hf : db.users.rows.find? (fun x => x.email == email) with
    | none => rw [hf] at ht; simp at ht
    | some u =>
      rw [hf] at ht
      cases hc : compare password u.password_hash with
      | false => simp [hc] at ht
      | true =>
        simp only [hc, if_true] at ht
        simp only [HResp.mk.injEq, RBody.tokenBody.injEq, true_and] at ht
        exact ⟨u, rfl, hc, ht.symm⟩

/-- Witness for C4: right credentials yield the signed token, a wrong
password and an unknown email both yield the same 401 body. -/
theorem C4_login_credentials_witness :
    login wEmailOk wCompare wSign wDB
      [("email", .jstr "admin@x.com"), ("password", .jstr "secret")] =
      ⟨200, .tokenBody "tok-admin@x.com"⟩ ∧
    login wEmailOk wCompare wSign wDB
      [("email", .jstr "admin@x.com"), ("password", .jstr "wrong!")] =
      ⟨401, .errorMsg "invalid_credentials"⟩ ∧
    login wEmailOk wCompare wSign wDB
      [("email", .jstr "ghost@x.com"), ("password", .jstr "secret")] =
      ⟨401, .errorMsg "invalid_credentials"⟩ :=
  ⟨((C4_login_credentials wEmailOk wCompare wSign wDB
       [("email", .jstr "admin@x.com"), ("password", .jstr "secret")]
       "admin@x.com" "secret" (by rfl)).1
      ⟨1, "admin@x.com", "HASH", "admin", 5⟩ (by decide) (by decide)).trans (by decide),
   ((C4_login_credentials wEmailOk wCompare wSign wDB
       [("email", .jstr "admin@x.com"), ("password", .jstr "wrong!")]
       "admin@x.com" "wrong!" (by rfl)).2.2.1
      ⟨1, "admin@x.com", "HASH", "admin", 5⟩ (by decide) (by decide)),
   ((C4_login_credentials wEmailOk wCompare wSign wDB
       [("email", .jstr "ghost@x.com"), ("password", .jstr "secret")]
       "ghost@x.com" "secret" (by rfl)).2.1 (by decide))⟩

/-- C5: For every id that matches no existing row, every admin PUT and
DELETE endpoint responds HTTP 200 with a changed-row count of zero and
leaves the store unchanged; none of these routes can produce a 404. -/
theorem C5_missing_id (urlOk : String → Bool) (db : DB) (id : Nat)
    (hs : ∀ r ∈ db.services.rows, r.id ≠ id)
    (htm : ∀ r ∈ db.team.rows, r.id ≠ id)
    (hts : ∀ r ∈ db.testimonials.rows, r.id ≠ id)
    (hg : ∀ r ∈ db.gallery.rows, r.id ≠ id)
    (hp : ∀ r ∈ db.posts.rows, r.id ≠ id)
    (ha : ∀ r ∈ db.appointments.rows, r.id ≠ id)
    (hc : ∀ r ∈ db.contacts.rows, r.id ≠ id) :
    (∀ b d, validateService b = .ok d →
       putService db id b = (⟨200, .updatedCount 0⟩, db)) ∧
    deleteService db id = (⟨200, .deletedCount 0⟩, db) ∧
    (∀ b d, validateTeam urlOk b = .ok d →
       putTeam urlOk db id b = (⟨200, .updatedCount 0⟩, db)) ∧
    deleteTeam db id = (⟨200, .deletedCount 0⟩, db) ∧
    (∀ b d, validateTestimonial b = .ok d →
       putTestimonial db id b = (⟨200, .updatedCount 0⟩, db)) ∧
    deleteTestimonial db id = (⟨200, .deletedCount 0⟩, db) ∧
    (∀ b d, validateGallery urlOk b = .ok d →
       putGallery urlOk db id b = (⟨200, .updatedCount 0⟩, db)) ∧
    deleteGallery db id = (⟨200, .deletedCount 0⟩, db) ∧
    (∀ b d, validatePost urlOk b = .ok d →
       putPost urlOk db id b = (⟨200, .updatedCount 0⟩, db)) ∧
    deletePost db id = (⟨200, .deletedCount 0⟩, db) ∧
    (∀ b s, validateStatus b = .ok s →
       putApptStatus db id b = (⟨200, .updatedCount 0⟩, db)) ∧
    deleteAppt db id = (⟨200, .deletedCount 0⟩, db) ∧
    deleteContact db id = (⟨200, .deletedCount 0⟩, db) := by
  refine ⟨?_, ?_, ?_, ?_, ?_, ?_, ?_, ?_, ?_, ?_, ?_, ?_, ?_⟩
  · intro b d hv
    simp [putService, hv, updateById_no_match db.services (fun r => r.id) id _ hs]
  · simp [deleteService, deleteById_no_match db.services (fun r => r.id) id hs]
  · intro b d hv
    simp [putTeam, hv, updateById_no_match db.team (fun r => r.id) id _ htm]
  · simp [deleteTeam, deleteById_no_match db.team (fun r => r.id) id htm]
  · intro b d hv
    simp [putTestimonial, hv,
      updateById_no_match db.testimonials (fun r => r.id) id _ hts]
  · simp [deleteTestimonial,
      deleteById_no_match db.testimonials (fun r => r.id) id hts]
  · intro b d hv
    simp [putGallery, hv, updateById_no_match db.gallery (fun r => r.id) id _ hg]
  · simp [deleteGallery, deleteById_no_match db.gallery (fun r => r.id) id hg]
  · intro b d hv
    simp [putPost, hv, updateById_no_match db.posts (fun r => r.id) id _ hp]
  · simp [deletePost, deleteById_no_match db.posts (fun r => r.id) id hp]
  · intro b s hv
    simp [putApptStatus, hv,
      updateById_no_match db.appointments (fun r => r.id) id _ ha]
  · simp [deleteAppt, deleteById_no_match db.appointments (fun r => r.id) id ha]
  · simp [deleteContact, deleteById_no_match db.contacts (fun r => r.id) id hc]

/-- Witness for C5: on the fresh store no id exists; every admin PUT and
DELETE at id 1 returns a zero count and keeps the store intact. -/
theorem C5_missing_id_witness :
    putService emptyDB 1 wServiceBody = (⟨200, .updatedCount 0⟩, emptyDB) ∧
    deleteService emptyDB 1 = (⟨200, .deletedCount 0⟩, emptyDB) ∧
    putTeam wUrlOk emptyDB 1 wTeamBody = (⟨200, .updatedCount 0⟩, emptyDB) ∧
    deleteTeam emptyDB 1 = (⟨200, .deletedCount 0⟩, emptyDB) ∧
    putTestimonial emptyDB 1 wTestimonialBody = (⟨200, .updatedCount 0⟩, emptyDB) ∧
    deleteTestimonial emptyDB 1 = (⟨200, .deletedCount 0⟩, emptyDB) ∧
    putGallery wUrlOk emptyDB 1 wGalleryBody = (⟨200, .updatedCount 0⟩, emptyDB) ∧
    deleteGallery emptyDB 1 = (⟨200, .deletedCount 0⟩, emptyDB) ∧
    putPost wUrlOk emptyDB 1 wPostBody = (⟨200, .updatedCount 0⟩, emptyDB) ∧
    deletePost emptyDB 1 = (⟨200, .deletedCount 0⟩, emptyDB) ∧
    putApptStatus emptyDB 1 wStatusBody = (⟨200, .updatedCount 0⟩, emptyDB) ∧
    deleteAppt emptyDB 1 = (⟨200, .deletedCount 0⟩, emptyDB) ∧
    deleteContact emptyDB 1 = (⟨200, .deletedCount 0⟩, emptyDB) := by
  have h := C5_missing_id wUrlOk emptyDB 1
    (by simp [emptyDB]) (by simp [emptyDB]) (by simp [emptyDB]) (by simp [emptyDB])
    (by simp [emptyDB]) (by simp [emptyDB]) (by simp [emptyDB])
  exact ⟨h.1 wServiceBody ⟨"Corte", none, 4000, none⟩ (by rfl),
    h.2.1,
    h.2.2.1 wTeamBody ⟨"Jo", none, none, none⟩ (by rfl),
    h.2.2.2.1,
    h.2.2.2.2.1 wTestimonialBody ⟨"Ana", "Great", 5, none⟩ (by rfl),
    h.2.2.2.2.2.1,
    h.2.2.2.2.2.2.1 wGalleryBody ⟨"http://img/1.png", none, none⟩ (by rfl),
    h.2.2.2.2.2.2.2.1,
    h.2.2.2.2.2.2.2.2.1 wPostBody ⟨"Post", none, none, none, none⟩ (by rfl),
    h.2.2.2.2.2.2.2.2.2.1,
    h.2.2.2.2.2.2.2.2.2.2.1 wStatusBody "confirmed" (by rfl),
    h.2.2.2.2.2.2.2.2.2.2.2.1,
    h.2.2.2.2.2.2.2.2.2.2.2.2⟩

/-! Facts about the startup sequence, used by C6. -/

theorem seedIfEmpty_users (now : Nat) (db : DB) :
    (seedIfEmpty now db).users = db.users := by
  unfold seedIfEmpty
  split <;> rfl

theorem seedIfEmpty_services_ne_nil (now : Nat) (db : DB) :
    (seedIfEmpty now db).services.rows ≠ [] := by
  unfold seedIfEmpty
  by_cases h : db.services.rows.length = 0
  · simp [h, Table.insertRow]
  · rw [if_neg h]
    intro hnil
    exact h (by rw [hnil]; rfl)

theorem seedIfEmpty_of_ne_nil (now : Nat) (db : DB) (h : db.services.rows ≠ []) :
    seedIfEmpty now db = db := by
  unfold seedIfEmpty
  rw [if_neg (by simpa using h)]

theorem ensureAdminUser_services (hash : String → String) (e p : Option String)
    (now : Nat) (db : DB) : (ensureAdminUser hash e p now db).services = db.services := by
  cases e with
  | none => rfl
  | some e0 =>
    cases p with
    | none => rfl
    | some p0 =>
      simp only [ensureAdminUser]
      by_cases hg : e0 = "" ∨ p0 = ""
      · rw [if_pos hg]
      · rw [if_neg hg]
        cases hf : db.users.rows.find? (fun u => u.email == e0) <;>
          simp [hf, Table.insertRow]

theorem ensureAdminUser_found (hash : String → String) (e p : String) (now : Nat)
    (db : DB) (he : e ≠ "") (hp : p ≠ "")
    (hf : (db.users.rows.find? (fun u => u.email == e)).isSome) :
    ensureAdminUser hash (some e) (some p) now db = db := by
  simp only [ensureAdminUser]
  rw [if_neg (by simp [he, hp])]
  obtain ⟨u, hu⟩ := Option.isSome_iff_exists.mp hf
  rw [hu]

theorem ensureAdminUser_not_found (hash : String → String) (e p : String) (now : Nat)
    (db : DB) (he : e ≠ "") (hp : p ≠ "")
    (hf : db.users.rows.find? (fun u => u.email == e) = none) :
    ensureAdminUser hash (some e) (some p) now db =
      { db with users :=
         ⟨db.users.rows ++ [⟨db.users.nextId, e, hash p, "admin", now⟩],
          db.users.nextId + 1⟩ } := by
  simp only [ensureAdminUser]
  rw [if_neg (by simp [he, hp]), hf]
  rfl

/-- C6: Running the startup sequence (seedIfEmpty then ensureAdminUser) a
second time with the same configured admin email is a no-op; afterwards
exactly one user row with that email exists, and a fresh store receives
exactly the three seeded services. -/
theorem C6_bootstrap_idempotent (hash : String → String) (e p : String)
    (n1 n2 : Nat) (db : DB) (he : e ≠ "") (hp : p ≠ "")
    (hu : (db.users.rows.filter (fun u => u.email == e)).length ≤ 1) :
    bootstrap hash (some e) (some p) n2 (bootstrap hash (some e) (some p) n1 db) =
      bootstrap hash (some e) (some p) n1 db ∧
    ((bootstrap hash (some e) (some p) n1 db).users.rows.filter
        (fun u => u.email == e)).length = 1 ∧
    (db.services.rows = [] →
      (bootstrap hash (some e) (some p) n1 db).services.rows.map (fun s => s.title) =
        ["Corte Clássico", "Barba Modelada", "Corte + Barba"]) := by
  have hsu : (seedIfEmpty n1 db).users = db.users := seedIfEmpty_users n1 db
  have hsne : (seedIfEmpty n1 db).services.rows ≠ [] := seedIfEmpty_services_ne_nil n1 db
  cases hf : db.users.rows.find? (fun u => u.email == e) with
  | some u =>
    have hb1 : bootstrap hash (some e) (some p) n1 db = seedIfEmpty n1 db := by
      unfold bootstrap
      exact ensureAdminUser_found hash e p n1 _ he hp (by rw [hsu, hf]; rfl)
    refine ⟨?_, ?_, ?_⟩
    · rw [hb1]
      unfold bootstrap
      rw [seedIfEmpty_of_ne_nil n2 _ hsne]
      exact ensureAdminUser_found hash e p n2 _ he hp (by rw [hsu, hf]; rfl)
    · rw [hb1, hsu]
      refine Nat.le_antisymm hu ?_
      have hpu := List.find?_some hf
      have hmemu := List.mem_of_find?_eq_some hf
      have hmem : u ∈ db.users.rows.filter (fun x => x.email == e) :=
        List.mem_filter.mpr ⟨hmemu, hpu⟩
      exact List.length_pos.mpr (fun hnil => by rw [hnil] at hmem; simp at hmem)
    · intro hempty
      rw [hb1]
      simp [seedIfEmpty, hempty, Table.insertRow]
  | none =>
    have hb1 : bootstrap hash (some e) (some p) n1 db =
        { seedIfEmpty n1 db with users :=
           ⟨db.users.rows ++ [⟨db.users.nextId, e, hash p, "admin", n1⟩],
            db.users.nextId + 1⟩ } := by
      unfold bootstrap
      rw [ensureAdminUser_not_found hash e p n1 _ he hp (by rw [hsu]; exact hf), hsu]
    have hfilter : (db.users.rows.filter (fun x => x.email == e)) = [] :=
      List.filter_eq_nil_iff.mpr (List.find?_eq_none.mp hf)
    refine ⟨?_, ?_, ?_⟩
    · rw [hb1]
      unfold bootstrap
      rw [seedIfEmpty_of_ne_nil n2 _ (by simpa using hsne)]
      refine ensureAdminUser_found hash e p n2 _ he hp ?_
      refine List.find?_isSome.mpr ⟨⟨db.users.nextId, e, hash p, "admin", n1⟩, ?_, by simp⟩
      simp
    · rw [hb1]
      simp [List.filter_append, hfilter]
    · intro hempty
      rw [hb1]
      simp [seedIfEmpty, hempty, Table.insertRow]

/-- Witness for C6: bootstrapping the fresh store twice with a configured
admin account. -/
theorem C6_bootstrap_idempotent_witness :
    bootstrap wHash (some "admin@x.com") (some "secret") 20
        (bootstrap wHash (some "admin@x.com") (some "secret") 10 emptyDB) =
      bootstrap wHash (some "admin@x.com") (some "secret") 10 emptyDB ∧
    ((bootstrap wHash (some "admin@x.com") (some "secret") 10 emptyDB).users.rows.filter
        (fun u => u.email == "admin@x.com")).length = 1 ∧
    (bootstrap wHash (some "admin@x.com") (some "secret") 10 emptyDB).services.rows.map
        (fun s => s.title) = ["Corte Clássico", "Barba Modelada", "Corte + Barba"] := by
  have h := C6_bootstrap_idempotent wHash "admin@x.com" "secret" 10 20 emptyDB
    (by decide) (by decide) (by decide)
  exact ⟨h.1, h.2.1, h.2.2 (by rfl)⟩

/-- C7: every collection GET returns rows ordered by id — ascending for the
public services and team lists, descending (newest-first) for the remaining
public lists and for every admin list; the public testimonials, gallery and
posts lists are capped at 12, 24 and 20 rows and complete below the cap;
admin collection endpoints return all rows unfiltered. -/
theorem C7_ordering_and_limits (db : DB) :
    List.Sorted (fun a b => a.id ≤ b.id) (getPublicServices db) ∧
    (∀ s ∈ db.services.rows, s.active = true → projService s ∈ getPublicServices db) ∧
    List.Sorted (fun a b => a.id ≤ b.id) (getPublicTeam db) ∧
    (∀ s ∈ db.team.rows, s.active = true → projTeam s ∈ getPublicTeam db) ∧
    List.Sorted (fun a b => b.id ≤ a.id) (getPublicTestimonials db) ∧
    (getPublicTestimonials db).length =
      min 12 (db.testimonials.rows.filter (fun r => r.active)).length ∧
    ((db.testimonials.rows.filter (fun r => r.active)).length ≤ 12 →
       ∀ s ∈ db.testimonials.rows, s.active = true →
         projTestimonial s ∈ getPublicTestimonials db) ∧
    List.Sorted (fun a b => b.id ≤ a.id) (getPublicGallery db) ∧
    (getPublicGallery db).length =
      min 24 (db.gallery.rows.filter (fun r => r.active)).length ∧
    ((db.gallery.rows.filter (fun r => r.active)).length ≤ 24 →
       ∀ s ∈ db.gallery.rows, s.active = true →
         projGallery s ∈ getPublicGallery db) ∧
    List.Sorted (fun a b => b.id ≤ a.id) (getPublicPosts db) ∧
    (getPublicPosts db).length =
      min 20 (db.posts.rows.filter (fun r => r.published)).length ∧
    ((db.posts.rows.filter (fun r => r.published)).length ≤ 20 →
       ∀ s ∈ db.posts.rows, s.published = true →
         projPost s ∈ getPublicPosts db) ∧
    (List.Sorted (fun a b => b.id ≤ a.id) (getAdminServices db) ∧
     ∀ r, r ∈ getAdminServices db ↔ r ∈ db.services.rows) ∧
    (List.Sorted (fun a b => b.id ≤ a.id) (getAdminTeam db) ∧
     ∀ r, r ∈ getAdminTeam db ↔ r ∈ db.team.rows) ∧
    (List.Sorted (fun a b => b.id ≤ a.id) (getAdminTestimonials db) ∧
     ∀ r, r ∈ getAdminTestimonials db ↔ r ∈ db.testimonials.rows) ∧
    (List.Sorted (fun a b => b.id ≤ a.id) (getAdminGallery db) ∧
     ∀ r, r ∈ getAdminGallery db ↔ r ∈ db.gallery.rows) ∧
    (List.Sorted (fun a b => b.id ≤ a.id) (getAdminPosts db) ∧
     ∀ r, r ∈ getAdminPosts db ↔ r ∈ db.posts.rows) ∧
    (List.Sorted (fun a b => b.id ≤ a.id) (getAdminAppointments db) ∧
     ∀ r, r ∈ getAdminAppointments db ↔ r ∈ db.appointments.rows) ∧
    (List.Sorted (fun a b => b.id ≤ a.id) (getAdminContacts db) ∧
     ∀ r, r ∈ getAdminContacts db ↔ r ∈ db.contacts.rows) := by
  refine ⟨?_, ?_, ?_, ?_, ?_, ?_, ?_, ?_, ?_, ?_, ?_, ?_, ?_,
    ⟨?_, ?_⟩, ⟨?_, ?_⟩, ⟨?_, ?_⟩, ⟨?_, ?_⟩, ⟨?_, ?_⟩, ⟨?_, ?_⟩, ⟨?_, ?_⟩⟩
  · exact List.pairwise_map.mpr (sorted_sortByKey _ _)
  · intro s hs hact
    exact List.mem_map_of_mem _
      ((mem_sortByKey _ _ _).mpr (List.mem_filter.mpr ⟨hs, hact⟩))
  · exact List.pairwise_map.mpr (sorted_sortByKey _ _)
  · intro s hs hact
    exact List.mem_map_of_mem _
      ((mem_sortByKey _ _ _).mpr (List.mem_filter.mpr ⟨hs, hact⟩))
  · exact List.pairwise_map.mpr
      (List.Pairwise.sublist (List.take_sublist _ _) (sorted_sortByKeyDesc _ _))
  · simp [getPublicTestimonials, List.length_take, length_sortByKeyDesc]
  · intro hlen s hs hact
    simp only [getPublicTestimonials]
    rw [List.take_of_length_le (by rw [length_sortByKeyDesc]; exact hlen)]
    exact List.mem_map_of_mem _
      ((mem_sortByKeyDesc _ _ _).mpr (List.mem_filter.mpr ⟨hs, hact⟩))
  · exact List.pairwise_map.mpr
      (List.Pairwise.sublist (List.take_sublist _ _) (sorted_sortByKeyDesc _ _))
  · simp [getPublicGallery, List.length_take, length_sortByKeyDesc]
  · intro hlen s hs hact
    simp only [getPublicGallery]
    rw [List.take_of_length_le (by rw [length_sortByKeyDesc]; exact hlen)]
    exact List.mem_map_of_mem _
      ((mem_sortByKeyDesc _ _ _).mpr (List.mem_filter.mpr ⟨hs, hact⟩))
  · exact List.pairwise_map.mpr
      (List.Pairwise.sublist (List.take_sublist _ _) (sorted_sortByKeyDesc _ _))
  · simp [getPublicPosts, List.length_take, length_sortByKeyDesc]
  · intro hlen s hs hact
    simp only [getPublicPosts]
    rw [List.take_of_length_le (by rw [length_sortByKeyDesc]; exact hlen)]
    exact List.mem_map_of_mem _
      ((mem_sortByKeyDesc _ _ _).mpr (List.mem_filter.mpr ⟨hs, hact⟩))
  · exact sorted_sortByKeyDesc _ _
  · exact fun r => mem_sortByKeyDesc _ _ _
  · exact sorted_sortByKeyDesc _ _
  · exact fun r => mem_sortByKeyDesc _ _ _
  · exact sorted_sortByKeyDesc _ _
  · exact fun r => mem_sortByKeyDesc _ _ _
  · exact sorted_sortByKeyDesc _ _
  · exact fun r => mem_sortByKeyDesc _ _ _
  · exact sorted_sortByKeyDesc _ _
  · exact fun r => mem_sortByKeyDesc _ _ _
  · exact sorted_sortByKeyDesc _ _
  · exact fun r => mem_sortByKeyDesc _ _ _
  · exact sorted_sortByKeyDesc _ _
  · exact fun r => mem_sortByKeyDesc _ _ _

/-- Witness for C7: in the populated store the active rows appear in the
public lists and the inactive service still appears in the admin list. -/
theorem C7_ordering_and_limits_witness :
    projService ⟨1, "Corte", some "d", 4000, true, 5⟩ ∈ getPublicServices wDB ∧
    projTestimonial ⟨1, "Ana", "Great", 5, true, 5⟩ ∈ getPublicTestimonials wDB ∧
    (⟨2, "Hidden", none, 1000, false, 5⟩ : ServiceRow) ∈ getAdminServices wDB :=
  ⟨(C7_ordering_and_limits wDB).2.1 ⟨1, "Corte", some "d", 4000, true, 5⟩
     (by decide) (by decide),
   (C7_ordering_and_limits wDB).2.2.2.2.2.2.1 (by decide)
     ⟨1, "Ana", "Great", 5, true, 5⟩ (by decide) (by decide),
   ((C7_ordering_and_limits wDB).2.2.2.2.2.2.2.2.2.2.2.2.2.1.2
      ⟨2, "Hidden", none, 1000, false, 5⟩).mpr (by decide)⟩

/-- C8: PUT /admin/appointments/:id/status with one of the three allowed
status values rewrites only the status field of the matched appointment row —
all of its other fields, every other row, and every other table are
unchanged — and the update is accepted whatever the row's current status
(no transition graph is enforced). -/
theorem C8_status_update (db : DB) (id : Nat) (b : Body) (s : String)
    (hs : getField b "status" = some (JVal.jstr s))
    (henum : s = "pending" ∨ s = "confirmed" ∨ s = "canceled") :
    putApptStatus db id b =
      (⟨200, .updatedCount (db.appointments.rows.filter (fun r => r.id == id)).length⟩,
       { db with appointments :=
          ⟨db.appointments.rows.map
             (fun r => if r.id == id then { r with status := s } else r),
           db.appointments.nextId⟩ }) ∧
    (∀ r ∈ db.appointments.rows, r.id ≠ id →
       r ∈ (putApptStatus db id b).2.appointments.rows) ∧
    (∀ r ∈ db.appointments.rows, r.id = id →
       { r with status := s } ∈ (putApptStatus db id b).2.appointments.rows) := by
  have hcheck : checkEnum b "status" ["pending", "confirmed", "canceled"] = none := by
    rcases henum with h | h | h <;> simp [checkEnum, hs, h]
  have hval : validateStatus b = .ok s := by
    unfold validateStatus
    rw [runSchema_of_no_errors _ _ (by simp [statusChecks, fieldErrors, hcheck])]
    simp [getStr, hs]
  have heq : putApptStatus db id b =
      (⟨200, .updatedCount (db.appointments.rows.filter (fun r => r.id == id)).length⟩,
       { db with appointments :=
          ⟨db.appointments.rows.map
             (fun r => if r.id == id then { r with status := s } else r),
           db.appointments.nextId⟩ }) := by
    simp [putApptStatus, hval, updateById]
  refine ⟨heq, ?_, ?_⟩
  · intro r hr hne
    rw [heq]
    refine List.mem_map.mpr ⟨r, hr, ?_⟩
    simp [beq_eq_false_iff_ne.mpr hne]
  · intro r hr hid
    rw [heq]
    refine List.mem_map.mpr ⟨r, hr, ?_⟩
    simp [hid]

/-- Witness for C8: moving the confirmed appointment back to pending is
accepted and touches only that row's status. -/
theorem C8_status_update_witness :
    putApptStatus wApptDB 1 [("status", .jstr "pending")] =
      (⟨200, .updatedCount 1⟩,
       { wApptDB with appointments :=
          ⟨[⟨1, "Ana Silva", "11999999999", "ana@x.com", none, none, none,
             "pending", 5⟩,
            ⟨2, "Bruno Reis", "11888888888", "bruno@x.com", none, none, none,
             "pending", 6⟩], 3⟩ }) :=
  ((C8_status_update wApptDB 1 [("status", .jstr "pending")] "pending"
      (by decide) (Or.inl rfl)).1).trans (by decide)

/-- When a schema rejects a body, the produced error map is nonempty, has at
most one entry per field, and holds exactly the fields whose check failed. -/
theorem schema_error_facts {T : Type} (checks : List (String × Option String))
    (parsed : T) (es : List (String × String))
    (h : runSchema checks parsed = .error es)
    (hnd : (checks.map Prod.fst).Nodup) :
    es ≠ [] ∧ (es.map Prod.fst).Nodup ∧
    (∀ k m, (k, m) ∈ es ↔ (k, some m) ∈ checks) := by
  obtain ⟨hfe, hne⟩ := runSchema_error checks parsed es h
  exact ⟨hne, hfe ▸ keys_fieldErrors_nodup checks hnd,
    fun k m => hfe ▸ mem_fieldErrors checks k m⟩

/-- C9: On every validated write endpoint, a body the schema rejects yields
HTTP 400 carrying the field-keyed error map — nonempty, one entry per
invalid field, every simultaneous violation reported — and the store is
untouched. -/
theorem C9_validation_failure (emailOk urlOk : String → Bool) (now : Nat)
    (db : DB) (id : Nat) :
    (∀ b es, validateAppt emailOk b = .error es →
       postAppointments emailOk now db b = (⟨400, .errorFields es⟩, db) ∧
       es ≠ [] ∧ (es.map Prod.fst).Nodup ∧
       (∀ k m, (k, m) ∈ es ↔ (k, some m) ∈ apptChecks emailOk b)) ∧
    (∀ b es, validateContact emailOk b = .error es →
       postContact emailOk now db b = (⟨400, .errorFields es⟩, db) ∧
       es ≠ [] ∧ (es.map Prod.fst).Nodup ∧
       (∀ k m, (k, m) ∈ es ↔ (k, some m) ∈ contactChecks emailOk b)) ∧
    (∀ b es, validateService b = .error es →
       postService now db b = (⟨400, .errorFields es⟩, db) ∧
       putService db id b = (⟨400, .errorFields es⟩, db) ∧
       es ≠ [] ∧ (es.map Prod.fst).Nodup ∧
       (∀ k m, (k, m) ∈ es ↔ (k, some m) ∈ serviceChecks b)) ∧
    (∀ b es, validateTeam urlOk b = .error es →
       postTeam urlOk now db b = (⟨400, .errorFields es⟩, db) ∧
       putTeam urlOk db id b = (⟨400, .errorFields es⟩, db) ∧
       es ≠ [] ∧ (es.map Prod.fst).Nodup ∧
       (∀ k m, (k, m) ∈ es ↔ (k, some m) ∈ teamChecks urlOk b)) ∧
    (∀ b es, validateTestimonial b = .error es →
       postTestimonial now db b = (⟨400, .errorFields es⟩, db) ∧
       putTestimonial db id b = (⟨400, .errorFields es⟩, db) ∧
       es ≠ [] ∧ (es.map Prod.fst).Nodup ∧
       (∀ k m, (k, m) ∈ es ↔ (k, some m) ∈ testimonialChecks b)) ∧
    (∀ b es, validateGallery urlOk b = .error es →
       postGallery urlOk now db b = (⟨400, .errorFields es⟩, db) ∧
       putGallery urlOk db id b = (⟨400, .errorFields es⟩, db) ∧
       es ≠ [] ∧ (es.map Prod.fst).Nodup ∧
       (∀ k m, (k, m) ∈ es ↔ (k, some m) ∈ galleryChecks urlOk b)) ∧
    (∀ b es, validatePost urlOk b = .error es →
       postPost urlOk now db b = (⟨400, .errorFields es⟩, db) ∧
       putPost urlOk db id b = (⟨400, .errorFields es⟩, db) ∧
       es ≠ [] ∧ (es.map Prod.fst).Nodup ∧
       (∀ k m, (k, m) ∈ es ↔ (k, some m) ∈ postChecks urlOk b)) ∧
    (∀ b es, validateStatus b = .error es →
       putApptStatus db id b = (⟨400, .errorFields es⟩, db) ∧
       es ≠ [] ∧ (es.map Prod.fst).Nodup ∧
       (∀ k m, (k, m) ∈ es ↔ (k, some m) ∈ statusChecks b)) := by
  refine ⟨?_, ?_, ?_, ?_, ?_, ?_, ?_, ?_⟩
  · intro b es hv
    obtain ⟨hne, hnd, hmem⟩ := schema_error_facts (apptChecks emailOk b) _ es hv
      (by have hk : (apptChecks emailOk b).map Prod.fst = ["name", "phone", "email", "service", "datetime", "notes"] := rfl
          rw [hk]; decide)
    exact ⟨by simp [postAppointments, hv], hne, hnd, hmem⟩
  · intro b es hv
    obtain ⟨hne, hnd, hmem⟩ := schema_error_facts (contactChecks emailOk b) _ es hv
      (by have hk : (contactChecks emailOk b).map Prod.fst = ["name", "email", "message"] := rfl
          rw [hk]; decide)
    exact ⟨by simp [postContact, hv], hne, hnd, hmem⟩
  · intro b es hv
    obtain ⟨hne, hnd, hmem⟩ := schema_error_facts (serviceChecks b) _ es hv
      (by have hk : (serviceChecks b).map Prod.fst = ["title", "description", "price_cents", "active"] := rfl
          rw [hk]; decide)
    exact ⟨by simp [postService, hv], by simp [putService, hv], hne, hnd, hmem⟩
  · intro b es hv
    obtain ⟨hne, hnd, hmem⟩ := schema_error_facts (teamChecks urlOk b) _ es hv
      (by have hk : (teamChecks urlOk b).map Prod.fst = ["name", "role", "photo_url", "active"] := rfl
          rw [hk]; decide)
    exact ⟨by simp [postTeam, hv], by simp [putTeam, hv], hne, hnd, hmem⟩
  · intro b es hv
    obtain ⟨hne, hnd, hmem⟩ := schema_error_facts (testimonialChecks b) _ es hv
      (by have hk : (testimonialChecks b).map Prod.fst = ["author", "content", "rating", "active"] := rfl
          rw [hk]; decide)
    exact ⟨by simp [postTestimonial, hv], by simp [putTestimonial, hv], hne, hnd, hmem⟩
  · intro b es hv
    obtain ⟨hne, hnd, hmem⟩ := schema_error_facts (galleryChecks urlOk b) _ es hv
      (by have hk : (galleryChecks urlOk b).map Prod.fst = ["image_url", "caption", "active"] := rfl
          rw [hk]; decide)
    exact ⟨by simp [postGallery, hv], by simp [putGallery, hv], hne, hnd, hmem⟩
  · intro b es hv
    obtain ⟨hne, hnd, hmem⟩ := schema_error_facts (postChecks urlOk b) _ es hv
      (by have hk : (postChecks urlOk b).map Prod.fst = ["title", "excerpt", "content", "cover_url", "published"] := rfl
          rw [hk]; decide)
    exact ⟨by simp [postPost, hv], by simp [putPost, hv], hne, hnd, hmem⟩
  · intro b es hv
    obtain ⟨hne, hnd, hmem⟩ := schema_error_facts (statusChecks b) _ es hv
      (by have hk : (statusChecks b).map Prod.fst = ["status"] := rfl
          rw [hk]; decide)
    exact ⟨by simp [putApptStatus, hv], hne, hnd, hmem⟩

/-- Witness for C9: a service body with two simultaneous violations is
rejected with both fields reported and the fresh store untouched, on both
the POST and the PUT route. -/
theorem C9_validation_failure_witness :
    postService 1000 emptyDB wBadServiceBody =
      (⟨400, .errorFields wBadServiceErrors⟩, emptyDB) ∧
    putService emptyDB 1 wBadServiceBody =
      (⟨400, .errorFields wBadServiceErrors⟩, emptyDB) ∧
    wBadServiceErrors ≠ [] ∧ (wBadServiceErrors.map Prod.fst).Nodup ∧
    (("title", "Too small") ∈ wBadServiceErrors ↔
      ("title", some "Too small") ∈ serviceChecks wBadServiceBody) := by
  have h := (C9_validation_failure wEmailOk wUrlOk 1000 emptyDB 1).2.2.1
    wBadServiceBody wBadServiceErrors (by rfl)
  exact ⟨h.1, h.2.1, h.2.2.1, h.2.2.2.1, h.2.2.2.2 "title" "Too small"⟩

/-- C10: the admin full-replace updates do not preserve an omitted
visibility flag: a valid PUT body without `active` rewrites the matched
services/team/testimonials/gallery row with `active = true` (even if it was
false), and a valid PUT body without `published` rewrites the matched post
with `published = false` (even if it was true). -/
theorem C10_omitted_flag_reset (urlOk : String → Bool) (db : DB) (id : Nat) :
    (∀ b d, validateService b = .ok d → getField b "active" = none →
       (putService db id b).2.services.rows =
         db.services.rows.map (fun r => if r.id == id then
           { r with title := d.title, description := orNull d.description,
                    price_cents := d.price_cents, active := true } else r)) ∧
    (∀ b d, validateTeam urlOk b = .ok d → getField b "active" = none →
       (putTeam urlOk db id b).2.team.rows =
         db.team.rows.map (fun r => if r.id == id then
           { r with name := d.name, role := orNull d.role,
                    photo_url := orNull d.photo_url, active := true } else r)) ∧
    (∀ b d, validateTestimonial b = .ok d → getField b "active" = none →
       (putTestimonial db id b).2.testimonials.rows =
         db.testimonials.rows.map (fun r => if r.id == id then
           { r with author := d.author, content := d.content,
                    rating := d.rating, active := true } else r)) ∧
    (∀ b d, validateGallery urlOk b = .ok d → getField b "active" = none →
       (putGallery urlOk db id b).2.gallery.rows =
         db.gallery.rows.map (fun r => if r.id == id then
           { r with image_url := d.image_url, caption := orNull d.caption,
                    active := true } else r)) ∧
    (∀ b d, validatePost urlOk b = .ok d → getField b "published" = none →
       (putPost urlOk db id b).2.posts.rows =
         db.posts.rows.map (fun r => if r.id == id then
           { r with title := d.title, excerpt := orNull d.excerpt,
                    content := orNull d.content, cover_url := orNull d.cover_url,
                    published := false } else r)) := by
  refine ⟨?_, ?_, ?_, ?_, ?_⟩
  · intro b d hv hnone
    obtain ⟨hfe, hd⟩ := runSchema_ok (serviceChecks b) _ d hv
    have hact : d.active = none := by rw [hd]; simp [getOptBool, hnone]
    simp [putService, hv, updateById, hact]
  · intro b d hv hnone
    obtain ⟨hfe, hd⟩ := runSchema_ok (teamChecks urlOk b) _ d hv
    have hact : d.active = none := by rw [hd]; simp [getOptBool, hnone]
    simp [putTeam, hv, updateById, hact]
  · intro b d hv hnone
    obtain ⟨hfe, hd⟩ := runSchema_ok (testimonialChecks b) _ d hv
    have hact : d.active = none := by rw [hd]; simp [getOptBool, hnone]
    simp [putTestimonial, hv, updateById, hact]
  · intro b d hv hnone
    obtain ⟨hfe, hd⟩ := runSchema_ok (galleryChecks urlOk b) _ d hv
    have hact : d.active = none := by rw [hd]; simp [getOptBool, hnone]
    simp [putGallery, hv, updateById, hact]
  · intro b d hv hnone
    obtain ⟨hfe, hd⟩ := runSchema_ok (postChecks urlOk b) _ d hv
    have hact : d.published = none := by rw [hd]; simp [getOptBool, hnone]
    simp [putPost, hv, updateById, hact]

/-- Witness for C10: updating the inactive service without an `active` field
re-activates it, and updating the published post without a `published` field
unpublishes it. -/
theorem C10_omitted_flag_reset_witness :
    (putService wDB 2 wServiceBody).2.services.rows =
      [⟨1, "Corte", some "d", 4000, true, 5⟩, ⟨2, "Corte", none, 4000, true, 5⟩] ∧
    (putPost wUrlOk wDB 1 wPostBody).2.posts.rows =
      [⟨1, "Post", none, none, none, false, 5⟩] := by
  have h2 := C10_omitted_flag_reset wUrlOk wDB 2
  have h1 := C10_omitted_flag_reset wUrlOk wDB 1
  exact ⟨(h2.1 wServiceBody ⟨"Corte", none, 4000, none⟩ (by rfl) (by rfl)).trans
      (by decide),
    (h1.2.2.2.2 wPostBody ⟨"Post", none, none, none, none⟩ (by rfl) (by rfl)).trans
      (by decide)⟩

end Barbearia
